import Mathlib

/-!
Shallow embedding of the RDS PostgreSQL user-rotation lambda
(`user-rotation/lambda/rotate_secret.py`) together with proofs of the
specification's claims about it.

External collaborators (the secret store, the database driver, and the RDS
control-plane API) are modelled as explicit environments of functions; the
rotation code itself is translated function-by-function from the source.
Python exceptions become `Except Err` results; side effects that the claims
talk about (database statements, store writes, connection attempts) are
returned as explicit traces.
-/

deriving instance DecidableEq for Except

namespace RotateSecret

/-- Python's `str.lower()` on the ASCII identifiers this code compares. -/
def str_lower (s : String) : String := String.mk (s.data.map Char.toLower)

/-- Failure taxonomy.  Each constructor corresponds to a distinct `raise`
site (or exception class caught and re-raised) in the source. -/
inductive Err where
  | notEligible
  | unknownVersion
  | invalidStage
  | invalidStep
  | malformedSecret
  | missingField (field : String)
  | unsupportedEngine
  | invalidArn
  | usernameTooLong
  | connectionFailed
  | stateMismatch
  | topologyMismatch
  | keyError
  | resourceNotFound
  | apiError
  | instanceNotFound
  | clusterNotFound
  | indexError
  deriving DecidableEq

/-- Value held under the optional `ssl` key of a secret payload: a JSON
boolean, a JSON string, or some other JSON type. -/
inductive SslVal where
  | b (val : Bool)
  | s (val : String)
  | other
  deriving DecidableEq

/-- A parsed secret payload.  The Python code works on an open JSON object;
the fields below are exactly the keys the rotation code ever reads, each
optional because the code checks presence explicitly (or raises KeyError). -/
structure RawDict where
  engine : Option String
  host : Option String
  username : Option String
  password : Option String
  dbname : Option String
  port : Option Nat
  masterarn : Option String
  ssl : Option SslVal
  deriving DecidableEq

/-- A payload with every key absent; used to build concrete payloads. -/
def emptyDict : RawDict :=
  { engine := none, host := none, username := none, password := none,
    dbname := none, port := none, masterarn := none, ssl := none }

/-- `get_ssl_config` (rotate_secret.py:329): resolves the `(use_ssl,
fall_back)` pair from the optional `ssl` key. -/
def get_ssl_config (secret_dict : RawDict) : Bool × Bool :=
  match secret_dict.ssl with
  | none => (true, true)
  | some (.b v) => (v, false)
  | some (.s v) =>
    if str_lower v = "true" then (true, false)
    else if str_lower v = "false" then (false, false)
    else (true, true)
  | some .other => (true, true)

/-- The keyword arguments handed to `psycopg2.connect`. -/
structure ConnArgs where
  host : String
  port : Nat
  dbname : String
  user : String
  password : String
  sslmode : String
  deriving DecidableEq

/-- The database driver: whether a given connection attempt succeeds. -/
structure ConnEnv where
  connect : ConnArgs → Bool

/-- `connect_and_authenticate` (rotate_secret.py:371).  Builds the
`psycopg2.connect` arguments and attempts the connection; any exception
(including a missing payload key) is swallowed and reported as failure.
Returns the success flag together with the list of attempts made. -/
def connect_and_authenticate (env : ConnEnv) (secret_dict : RawDict)
    (port : Nat) (dbname : String) (use_ssl : Bool) : Bool × List ConnArgs :=
  match secret_dict.host, secret_dict.username, secret_dict.password with
  | some h, some u, some pw =>
    let args : ConnArgs :=
      ⟨h, port, dbname, u, pw, if use_ssl then "require" else "prefer"⟩
    (env.connect args, [args])
  | _, _, _ => (false, [])

/-- `get_connection` (rotate_secret.py:301): resolves port, dbname and SSL
policy, attempts a connection, and retries once without SSL when the first
attempt fails and fallback is allowed. -/
def get_connection (env : ConnEnv) (secret_dict : RawDict) :
    Bool × List ConnArgs :=
  let port := match secret_dict.port with | some p => p | none => 5432
  let dbname := match secret_dict.dbname with | some d => d | none => "postgres"
  let cfg := get_ssl_config secret_dict
  let first := connect_and_authenticate env secret_dict port dbname cfg.1
  if first.1 || !cfg.2 then first
  else
    let second := connect_and_authenticate env secret_dict port dbname false
    (second.1, first.2 ++ second.2)

/-- The clone marker appended to / stripped from usernames. -/
def clone_suffix : String := "_clone"

/-- `get_alt_username` (rotate_secret.py:468): strips the clone marker when
present, otherwise appends it, failing when the appended form would exceed
PostgreSQL's 63-character identifier limit. -/
def get_alt_username (current_username : String) : Except Err String :=
  if clone_suffix.data <:+ current_username.data then
    .ok (String.mk
      (current_username.data.take
        (current_username.data.length - clone_suffix.length)))
  else
    let new_username := current_username ++ clone_suffix
    if new_username.length > 63 then .error .usernameTooLong
    else .ok new_username

/-- One record of a `DescribeDBInstances` response, restricted to the keys
the rotation code reads.  Optional fields model keys that may be absent
from the API response (Python `dict.get`). -/
structure InstanceInfo where
  endpointAddress : String
  endpointPort : Nat
  engine : String
  readReplicaSource : Option String
  dbClusterIdentifier : Option String
  deriving DecidableEq

/-- One member entry of a `DescribeDBClusters` response. -/
structure ClusterMember where
  dbInstanceIdentifier : String
  isClusterWriter : Bool
  deriving DecidableEq

/-- One record of a `DescribeDBClusters` response, restricted to the keys
the rotation code reads. -/
structure ClusterInfo where
  endpoint : String
  port : Nat
  engine : String
  readerEndpoint : Option String
  members : List ClusterMember
  deriving DecidableEq

/-- The RDS control-plane API.  Each call either raises (modelled by
`Except.error` carrying the message) or returns the list of matching
records; boto3 raises a not-found fault for unknown identifiers, which is
also an `Except.error` here. -/
structure RdsEnv where
  describeDBInstances : String → Except String (List InstanceInfo)
  describeDBClusters : String → Except String (List ClusterInfo)

/-- `get_instance_info_from_rds_api` (rotate_secret.py:570): re-raises API
errors and raises when no instance matches; otherwise returns the single
matching record. -/
def get_instance_info_from_rds_api (rds_client : RdsEnv) (instance_id : String) :
    Except Err InstanceInfo :=
  match rds_client.describeDBInstances instance_id with
  | .error _ => .error .apiError
  | .ok [] => .error .instanceNotFound
  | .ok (i :: _) => .ok i

/-- `get_cluster_info_from_rds_api` (rotate_secret.py:603): re-raises API
errors and raises when no cluster matches; otherwise returns the single
matching record. -/
def get_cluster_info_from_rds_api (rds_client : RdsEnv) (cluster_id : String) :
    Except Err ClusterInfo :=
  match rds_client.describeDBClusters cluster_id with
  | .error _ => .error .apiError
  | .ok [] => .error .clusterNotFound
  | .ok (c :: _) => .ok c

/-- The dictionary `get_cluster_info_from_master_host` builds from a
cluster record; `none` models the empty dictionary it returns when the
master instance is not part of a cluster. -/
structure ReplicaInfo where
  reader_endpoint : String
  instance_ids : List ClusterMember
  deriving DecidableEq

/-- Projection of a cluster record to the reader endpoint / member list
dictionary (rotate_secret.py:563). -/
def mkReplicaInfo (cluster_info : ClusterInfo) : ReplicaInfo :=
  ⟨cluster_info.readerEndpoint.getD "",
   cluster_info.members⟩

/-- `get_cluster_info_from_master_host` (rotate_secret.py:535): decides
whether the master host is a cluster endpoint (second host label contains
"cluster") or an instance endpoint, resolves the owning cluster in the
latter case, and fetches its topology.  Indexing label 1 of a host without
a dot raises IndexError in Python; missing payload keys raise KeyError. -/
def get_cluster_info_from_master_host (master_dict : RawDict) (rds_client : RdsEnv) :
    Except Err (Option ReplicaInfo) :=
  match master_dict.host with
  | none => .error .keyError
  | some mh =>
    let labels := mh.splitOn "."
    let master_instance_id := labels.headD ""
    match labels[1]? with
    | none => .error .indexError
    | some second =>
      if "cluster".data <:+: second.data then
        match get_cluster_info_from_rds_api rds_client master_instance_id with
        | .error e => .error e
        | .ok cluster_info => .ok (some (mkReplicaInfo cluster_info))
      else
        match get_instance_info_from_rds_api rds_client master_instance_id with
        | .error e => .error e
        | .ok current_instance =>
          match current_instance.dbClusterIdentifier with
          | none => .ok none
          | some cid =>
            match get_cluster_info_from_rds_api rds_client cid with
            | .error e => .error e
            | .ok cluster_info => .ok (some (mkReplicaInfo cluster_info))

/-- `is_rds_replica_database` (rotate_secret.py:493): checks whether the
replica payload's database is a read replica of the master payload's
database, per engine.  Topology lookups that fail propagate as errors. -/
def is_rds_replica_database (rds_client : RdsEnv)
    (replica_dict master_dict : RawDict) : Except Err Bool :=
  match replica_dict.host, master_dict.host, master_dict.engine with
  | some rh, some mh, some eng =>
    let replica_instance_id := (rh.splitOn ".").headD ""
    let master_instance_id := (mh.splitOn ".").headD ""
    if eng = "postgres" then
      match get_instance_info_from_rds_api rds_client replica_instance_id with
      | .error e => .error e
      | .ok current_instance =>
        .ok (current_instance.readReplicaSource = some master_instance_id)
    else if eng = "aurora-postgresql" then
      match get_cluster_info_from_master_host master_dict rds_client with
      | .error e => .error e
      | .ok none => .ok false
      | .ok (some replica_info) =>
        let is_reader_endpoint := rh = replica_info.reader_endpoint
        let is_reader_instance := replica_info.instance_ids.any
          (fun m => m.dbInstanceIdentifier = replica_instance_id && !m.isClusterWriter)
        .ok (is_reader_endpoint || is_reader_instance)
    else .ok false
  | _, _, _ => .error .keyError

/-- A stored secret string: either unparseable JSON or a parsed payload. -/
inductive SecretValue where
  | malformed
  | dict (d : RawDict)
  deriving DecidableEq

/-- The secret store service.  `getSecretValue arn stage token` models
`get_secret_value` (raising `resourceNotFound` when the stage/token pair
does not exist); `tags arn` models the `Tags` entry of `describe_secret`
(`none` when absent); `randomPassword` models `get_random_password`. -/
structure StoreEnv where
  getSecretValue : String → String → Option String → Except Err SecretValue
  tags : String → Option (List (String × String))
  randomPassword : String

/-- Upper bound on a DB instance/cluster ARN (rotate_secret.py:14). -/
def MAX_RDS_DB_INSTANCE_ARN_LENGTH : Nat := 256

/-- Whether a tag key names the RDS instance/cluster linkage
(rotate_secret.py:661). -/
def is_linkage_tag (key : String) : Bool :=
  str_lower key = "aws:rds:primarydbinstancearn" ||
  str_lower key = "aws:rds:primarydbclusterarn"

/-- `fetch_instance_arn_from_system_tags` (rotate_secret.py:636): scans the
secret's tags for the linkage tag (the last matching tag wins, as the
Python loop overwrites), returns `none` when tags are absent or no tag
matches, and raises when the linkage ARN exceeds the maximum length. -/
def fetch_instance_arn_from_system_tags (service_client : StoreEnv)
    (secret_arn : String) : Except Err (Option (String × String)) :=
  match service_client.tags secret_arn with
  | none => .ok none
  | some tags =>
    match (tags.filter (fun t => is_linkage_tag t.1)).getLast? with
    | none => .ok none
    | some t =>
      if t.2.length > MAX_RDS_DB_INSTANCE_ARN_LENGTH then .error .invalidArn
      else .ok (some (str_lower t.1, t.2))

/-- `get_connection_params_from_rds_api` (rotate_secret.py:675): fills
`host`, `port` and `engine` of a master payload from the instance or
cluster record named by the linkage tag. -/
def get_connection_params_from_rds_api (rds_client : RdsEnv)
    (master_dict : RawDict) (info : String × String) : Except Err RawDict :=
  if info.1 = "aws:rds:primarydbinstancearn" then
    match get_instance_info_from_rds_api rds_client info.2 with
    | .error e => .error e
    | .ok primary_instance =>
      .ok { master_dict with
              host := some primary_instance.endpointAddress,
              port := some primary_instance.endpointPort,
              engine := some primary_instance.engine }
  else if info.1 = "aws:rds:primarydbclusterarn" then
    match get_cluster_info_from_rds_api rds_client info.2 with
    | .error e => .error e
    | .ok primary_cluster =>
      .ok { master_dict with
              host := some primary_cluster.endpoint,
              port := some primary_cluster.port,
              engine := some primary_cluster.engine }
  else .ok master_dict

/-- `set(secret_dict.keys()) == set(['username', 'password'])`
(rotate_secret.py:445): the payload holds exactly a username and a
password. -/
def only_username_password (d : RawDict) : Bool :=
  d.username.isSome && d.password.isSome && d.engine.isNone && d.host.isNone &&
  d.dbname.isNone && d.port.isNone && d.masterarn.isNone && d.ssl.isNone

/-- Engines accepted by the validation (rotate_secret.py:460). -/
def supported_engines : List String := ["postgres", "aurora-postgresql"]

/-- The required-field loop of `get_secret_dict` (rotate_secret.py:456):
raises for the first absent field in the fixed order. -/
def required_field_check (d : RawDict) : Except Err Unit :=
  if d.host.isNone then .error (.missingField "host")
  else if d.username.isNone then .error (.missingField "username")
  else if d.password.isNone then .error (.missingField "password")
  else if d.engine.isNone then .error (.missingField "engine")
  else .ok ()

/-- The master-secret special case of `get_secret_dict`
(rotate_secret.py:445): when fetching a master secret whose payload holds
exactly a username and a password, resolve the linkage tag and fill the
connection parameters from the RDS API; otherwise the payload is kept
unchanged. -/
def enrich_master (service_client : StoreEnv) (rds_client : RdsEnv)
    (arn : String) (master_secret : Bool) (d0 : RawDict) : Except Err RawDict :=
  if master_secret && only_username_password d0 then
    match fetch_instance_arn_from_system_tags service_client arn with
    | .error e => .error e
    | .ok none => .ok d0
    | .ok (some info) => get_connection_params_from_rds_api rds_client d0 info
  else .ok d0

/-- `get_secret_dict` (rotate_secret.py:407): fetches and parses a secret
payload, enriches a connection-less master payload from the linkage tag
and the RDS API, then validates required fields and the engine. -/
def get_secret_dict (service_client : StoreEnv) (rds_client : RdsEnv)
    (arn stage : String) (token : Option String) (master_secret : Bool) :
    Except Err RawDict :=
  match service_client.getSecretValue arn stage token with
  | .error e => .error e
  | .ok .malformed => .error .malformedSecret
  | .ok (.dict d0) =>
    match enrich_master service_client rds_client arn master_secret d0 with
    | .error e => .error e
    | .ok d =>
      match required_field_check d with
      | .error e => .error e
      | .ok _ =>
        match d.engine with
        | none => .error (.missingField "engine")
        | some eng =>
          if eng ∈ supported_engines then .ok d else .error .unsupportedEngine

/-- `create_secret` (rotate_secret.py:94): reads the current payload, and
only when reading the pending version raises `resourceNotFound` does it
derive the alternate username, generate a password, and put a new pending
version.  The second component is the list of payloads passed to
`put_secret_value`. -/
def create_secret (service_client : StoreEnv) (rds_client : RdsEnv)
    (arn token : String) : Except Err Unit × List RawDict :=
  match get_secret_dict service_client rds_client arn "AWSCURRENT" none false with
  | .error e => (.error e, [])
  | .ok current_dict =>
    match get_secret_dict service_client rds_client arn "AWSPENDING" (some token) false with
    | .ok _ => (.ok (), [])
    | .error .resourceNotFound =>
      match current_dict.username with
      | none => (.error .keyError, [])
      | some u =>
        match get_alt_username u with
        | .error e => (.error e, [])
        | .ok alt =>
          let new_dict := { current_dict with
                              username := some alt,
                              password := some service_client.randomPassword }
          (.ok (), [new_dict])
    | .error e => (.error e, [])

/-- Events `set_secret` performs against the database, in order.
`openMaster` is the attempt to connect with the master credentials; the
remaining constructors are the SQL statements issued inside that
session. -/
inductive DbEff where
  | openMaster
  | createRole (user : String) (grantFrom : String)
  | alterPassword (user : String)
  | commit
  deriving DecidableEq

/-- Environment of `set_secret`: the database driver, the (injected) result
of fetching the master secret via `get_secret_dict(..., master=True)`, the
replica-topology check, and whether the pending role already exists in
`pg_roles`. -/
structure SetEnv where
  connEnv : ConnEnv
  masterFetch : Except Err RawDict
  isReplica : RawDict → RawDict → Except Err Bool
  roleExists : String → Bool

/-- `set_secret` (rotate_secret.py:130), given the already-fetched current
and pending payloads.  Follows the source order: connect with current
credentials, check the username pair, check the hosts, connect with
current again, fetch the master secret, carry over `dbname`, validate the
topology, connect as master, then create the role with a grant or update
its password, and commit.  The second component is the trace of master
session events. -/
def set_secret (env : SetEnv) (current_dict pending_dict : RawDict) :
    Except Err Unit × List DbEff :=
  if (get_connection env.connEnv current_dict).1 = false then
    (.error .connectionFailed, [])
  else
    match current_dict.username, pending_dict.username with
    | some cu, some pu =>
      match get_alt_username cu with
      | .error e => (.error e, [])
      | .ok alt =>
        if alt ≠ pu then (.error .stateMismatch, [])
        else
          match current_dict.host, pending_dict.host with
          | some ch, some ph =>
            if ch ≠ ph then (.error .stateMismatch, [])
            else if (get_connection env.connEnv current_dict).1 = false then
              (.error .connectionFailed, [])
            else
              match current_dict.masterarn with
              | none => (.error .keyError, [])
              | some _ =>
                match env.masterFetch with
                | .error e => (.error e, [])
                | .ok master0 =>
                  let master_dict := { master0 with dbname := current_dict.dbname }
                  match master_dict.host with
                  | none => (.error .keyError, [])
                  | some mh =>
                    let proceed : Except Err Unit × List DbEff :=
                      if (get_connection env.connEnv master_dict).1 = false then
                        (.error .connectionFailed, [.openMaster])
                      else if env.roleExists pu then
                        (.ok (), [.openMaster, .alterPassword pu, .commit])
                      else
                        (.ok (), [.openMaster, .createRole pu cu, .commit])
                    if ch ≠ mh then
                      match env.isReplica current_dict master_dict with
                      | .error e => (.error e, [])
                      | .ok true => proceed
                      | .ok false => (.error .topologyMismatch, [])
                    else proceed
          | _, _ => (.error .keyError, [])
    | _, _ => (.error .keyError, [])

/-- The `describe_secret` metadata the coordinator reads: the optional
`RotationEnabled` flag and the insertion-ordered version-to-stages map. -/
structure Metadata where
  rotationEnabled : Option Bool
  versions : List (String × List String)

/-- Outcome of the coordinator: success, recording which step was
dispatched (`none` when it returned before dispatching), or a raised
error. -/
inductive HandlerResult where
  | success (dispatched : Option String)
  | failure (e : Err)
  deriving DecidableEq

/-- The four recognised step names (rotate_secret.py:77). -/
def rotation_steps : List String :=
  ["createSecret", "setSecret", "testSecret", "finishSecret"]

/-- The staging guard and dispatch of `lambda_handler`
(rotate_secret.py:53): rejects disabled rotation, unknown tokens,
already-current tokens (success, no dispatch), tokens not pending, and
unknown step names. -/
def lambda_handler (metadata : Metadata) (token step : String) : HandlerResult :=
  if metadata.rotationEnabled = some false then .failure .notEligible
  else
    match metadata.versions.find? (fun q => q.1 == token) with
    | none => .failure .unknownVersion
    | some p =>
      if "AWSCURRENT" ∈ p.2 then .success none
      else if "AWSPENDING" ∉ p.2 then .failure .invalidStage
      else if step ∈ rotation_steps then .success (some step)
      else .failure .invalidStep

/-- Number of versions carrying the `AWSCURRENT` stage. -/
def countCurrent (versions : List (String × List String)) : Nat :=
  versions.countP (fun p => decide ("AWSCURRENT" ∈ p.2))

/-- `update_secret_version_stage` with `MoveToVersionId` and an optional
`RemoveFromVersionId`: the one combined stage move the store offers.  The
target version gains the stage (idempotently) and the removed version
loses it; stage sets of versions are kept as lists with set semantics. -/
def update_secret_version_stage (versions : List (String × List String))
    (stage moveTo : String) (removeFrom : Option String) :
    List (String × List String) :=
  versions.map fun p =>
    if p.1 = moveTo then (p.1, if stage ∈ p.2 then p.2 else stage :: p.2)
    else if removeFrom = some p.1 then (p.1, p.2.filter (fun s => s ≠ stage))
    else p

/-- `finish_secret` (rotate_secret.py:268): finds the first version staged
`AWSCURRENT`; when it is the requested token, returns without touching the
store; otherwise issues the single combined stage move.  The second
component counts the `update_secret_version_stage` calls made. -/
def finish_secret (versions : List (String × List String)) (token : String) :
    List (String × List String) × Nat :=
  match versions.find? (fun p => decide ("AWSCURRENT" ∈ p.2)) with
  | some p =>
    if p.1 = token then (versions, 0)
    else (update_secret_version_stage versions "AWSCURRENT" token (some p.1), 1)
  | none => (update_secret_version_stage versions "AWSCURRENT" token none, 1)

/-! ### Concrete environments and payloads used by witnesses -/

/-- A driver that accepts every connection attempt. -/
def allow_all_conn : ConnEnv := ⟨fun _ => true⟩

/-- A control plane that knows no instances and no clusters: every
`DescribeDBInstances` / `DescribeDBClusters` call finds nothing. -/
def empty_rds_env : RdsEnv := ⟨fun _ => .ok [], fun _ => .ok []⟩

/-- Candidate payload for the replica checks. -/
def c3_replica_dict : RawDict :=
  { emptyDict with host := some "candidate.example.com", engine := some "postgres" }

/-- Master payload for the replica checks. -/
def c3_master_dict : RawDict :=
  { emptyDict with host := some "master.example.com", engine := some "postgres" }

/-- An instance record that is not a replica of anything. -/
def c3_standalone_instance : InstanceInfo :=
  ⟨"candidate.example.com", 5432, "postgres", none, none⟩

/-- A control plane where every instance lookup finds the standalone
instance. -/
def c3_standalone_rds_env : RdsEnv :=
  ⟨fun _ => .ok [c3_standalone_instance], fun _ => .ok []⟩

/-- A current payload for the Set-step checks. -/
def c67_current : RawDict :=
  { emptyDict with engine := some "postgres", host := some "h.example.com",
                   username := some "app", password := some "pw",
                   masterarn := some "arn:master" }

/-- A pending payload whose username is not the clone of the current
one. -/
def c6_pending_bad : RawDict :=
  { emptyDict with engine := some "postgres", host := some "h.example.com",
                   username := some "nope", password := some "pw2" }

/-- A well-formed pending payload: the clone of the current username on
the same host. -/
def c7_pending_good : RawDict :=
  { emptyDict with engine := some "postgres", host := some "h.example.com",
                   username := some "app_clone", password := some "pw2" }

/-- A master payload on a different host than the current payload. -/
def c7_master_far : RawDict :=
  { emptyDict with engine := some "postgres", host := some "elsewhere.example.com",
                   username := some "postgres", password := some "mpw" }

/-- A master payload on the same host as the current payload. -/
def c7_master_near : RawDict :=
  { emptyDict with engine := some "postgres", host := some "h.example.com",
                   username := some "postgres", password := some "mpw" }

/-- Set-step environment whose master lives far away and whose topology
check answers false. -/
def c7_env_far : SetEnv :=
  ⟨allow_all_conn, .ok c7_master_far, fun _ _ => .ok false, fun _ => false⟩

/-- Set-step environment whose master is the same host. -/
def c7_env_near : SetEnv :=
  ⟨allow_all_conn, .ok c7_master_near, fun _ _ => .ok false, fun _ => false⟩

/-- A control-plane-managed master payload: username and password only. -/
def c8_master_payload : RawDict :=
  { emptyDict with username := some "masteruser", password := some "mpw" }

/-- A store holding the bare master payload with no tags at all. -/
def c8_store_untagged : StoreEnv :=
  ⟨fun _ _ _ => .ok (.dict c8_master_payload), fun _ => none, "rand"⟩

/-- A linkage ARN one character beyond the permitted maximum. -/
def c8_long_arn : String := String.mk (List.replicate 257 'a')

/-- A store whose linkage tag carries the over-long ARN. -/
def c8_store_long_arn : StoreEnv :=
  ⟨fun _ _ _ => .ok (.dict c8_master_payload),
   fun _ => some [("aws:rds:primarydbinstancearn", c8_long_arn)], "rand"⟩

/-- A store whose linkage tag names a resolvable instance ARN. -/
def c8_store_linked : StoreEnv :=
  ⟨fun _ _ _ => .ok (.dict c8_master_payload),
   fun _ => some [("aws:rds:primarydbinstancearn", "arn:aws:rds:db1")], "rand"⟩

/-- The instance record the linkage resolves to. -/
def c8_instance : InstanceInfo := ⟨"db1.example.com", 5432, "postgres", none, none⟩

/-- A control plane resolving every instance lookup to `c8_instance`. -/
def c8_rds : RdsEnv := ⟨fun _ => .ok [c8_instance], fun _ => .ok []⟩

/-- A store in which both a current and a pending version exist. -/
def c9_store_pending_exists : StoreEnv :=
  ⟨fun _ stage _ =>
      if stage = "AWSPENDING"
      then .ok (.dict c7_pending_good)
      else .ok (.dict c67_current),
   fun _ => none, "rand"⟩

/-! ## Theorems -/

/-- Claim C5: `get_ssl_config` returns `(true, true)` when the `ssl` key is
absent; `(v, false)` when it is a boolean `v`; `(true, false)` for a string
equal to "true" ignoring case; `(false, false)` for a string equal to
"false" ignoring case; and `(true, true)` for any other string. -/
theorem c5_get_ssl_config_policy :
    (∀ d : RawDict, d.ssl = none → get_ssl_config d = (true, true)) ∧
    (∀ (d : RawDict) (v : Bool), d.ssl = some (.b v) →
      get_ssl_config d = (v, false)) ∧
    (∀ (d : RawDict) (v : String), d.ssl = some (.s v) → str_lower v = "true" →
      get_ssl_config d = (true, false)) ∧
    (∀ (d : RawDict) (v : String), d.ssl = some (.s v) → str_lower v = "false" →
      get_ssl_config d = (false, false)) ∧
    (∀ (d : RawDict) (v : String), d.ssl = some (.s v) → str_lower v ≠ "true" →
      str_lower v ≠ "false" → get_ssl_config d = (true, true)) := by
  refine ⟨fun d h => by simp [get_ssl_config, h],
          fun d v h => by simp [get_ssl_config, h],
          fun d v h h1 => by simp [get_ssl_config, h, h1],
          fun d v h h1 => by simp [get_ssl_config, h, h1],
          fun d v h h1 h2 => by simp [get_ssl_config, h, h1, h2]⟩

/-- Witness for C5: the five cases instantiated on concrete payloads. -/
theorem c5_get_ssl_config_policy_witness :
    get_ssl_config emptyDict = (true, true) ∧
    get_ssl_config { emptyDict with ssl := some (.b false) } = (false, false) ∧
    get_ssl_config { emptyDict with ssl := some (.s "TRUE") } = (true, false) ∧
    get_ssl_config { emptyDict with ssl := some (.s "False") } = (false, false) ∧
    get_ssl_config { emptyDict with ssl := some (.s "bogus") } = (true, true) :=
  ⟨c5_get_ssl_config_policy.1 emptyDict rfl,
   c5_get_ssl_config_policy.2.1 _ false rfl,
   c5_get_ssl_config_policy.2.2.1 _ "TRUE" rfl (by decide),
   c5_get_ssl_config_policy.2.2.2.1 _ "False" rfl (by decide),
   c5_get_ssl_config_policy.2.2.2.2 _ "bogus" rfl (by decide) (by decide)⟩

/-- Claim C2: for every step value, including an unrecognised one, when the
requested token's stage set already includes `AWSCURRENT` (and the earlier
coordinator guards pass: rotation is not disabled and the token has a
stage entry), `lambda_handler` returns success without dispatching any
step and without raising. -/
theorem c2_handler_current_noop (metadata : Metadata) (token step : String)
    (p : String × List String)
    (henabled : metadata.rotationEnabled ≠ some false)
    (hfind : metadata.versions.find? (fun q => q.1 == token) = some p)
    (hcur : "AWSCURRENT" ∈ p.2) :
    lambda_handler metadata token step = .success none := by
  simp [lambda_handler, henabled, hfind, hcur]

/-- Witness for C2: a concrete already-current token with a nonsense step
name still yields success with no dispatch. -/
theorem c2_handler_current_noop_witness :
    lambda_handler ⟨some true, [("tok", ["AWSCURRENT", "AWSPREVIOUS"])]⟩
      "tok" "notARealStep" = .success none :=
  c2_handler_current_noop _ "tok" "notARealStep"
    ("tok", ["AWSCURRENT", "AWSPREVIOUS"]) (by decide) (by decide) (by decide)

/-- Every attempt `connect_and_authenticate` makes carries sslmode
"require" when called with `use_ssl = true` and "prefer" otherwise. -/
theorem sslmode_of_connect_attempt (env : ConnEnv) (d : RawDict) (port : Nat)
    (dbname : String) (use_ssl : Bool) (a : ConnArgs)
    (ha : a ∈ (connect_and_authenticate env d port dbname use_ssl).2) :
    a.sslmode = if use_ssl then "require" else "prefer" := by
  rcases d with ⟨e, h, u, pw, dbn, prt, ma, ssl⟩
  cases h <;> cases u <;> cases pw <;> simp_all [connect_and_authenticate]

/-- A sslmode of the shape the driver is given is "require" or "prefer"
and never "disable". -/
theorem sslmode_require_or_prefer {m : String} (b : Bool)
    (h : m = if b then "require" else "prefer") :
    (m = "require" ∨ m = "prefer") ∧ m ≠ "disable" := by
  cases b <;> simp [h]

/-- Claim C10: every connection attempt made with `use_ssl = true` passes
sslmode "require" and every attempt with `use_ssl = false` — including the
fallback retry of `get_connection` — passes "prefer"; no attempt ever
passes "disable". -/
theorem c10_sslmode_policy :
    (∀ (env : ConnEnv) (d : RawDict) (port : Nat) (dbname : String)
        (use_ssl : Bool) (a : ConnArgs),
      a ∈ (connect_and_authenticate env d port dbname use_ssl).2 →
      a.sslmode = if use_ssl then "require" else "prefer") ∧
    (∀ (env : ConnEnv) (d : RawDict) (a : ConnArgs),
      a ∈ (get_connection env d).2 →
      (a.sslmode = "require" ∨ a.sslmode = "prefer") ∧ a.sslmode ≠ "disable") := by
  constructor
  · exact sslmode_of_connect_attempt
  · intro env d a ha
    simp only [get_connection] at ha
    split at ha
    · exact sslmode_require_or_prefer _ (sslmode_of_connect_attempt _ _ _ _ _ _ ha)
    · rcases List.mem_append.mp ha with hmem | hmem
      · exact sslmode_require_or_prefer _ (sslmode_of_connect_attempt _ _ _ _ _ _ hmem)
      · exact sslmode_require_or_prefer _ (sslmode_of_connect_attempt _ _ _ _ _ _ hmem)

/-- Witness for C10: the attempt list of a concrete `get_connection` call
contains the expected argument record, and the claimed sslmode properties
hold of it. -/
theorem c10_sslmode_policy_witness :
    ((⟨"h.example.com", 5432, "postgres", "app", "pw", "require"⟩ : ConnArgs).sslmode
        = if true then "require" else "prefer") ∧
    (((⟨"h.example.com", 5432, "postgres", "app", "pw", "require"⟩ : ConnArgs).sslmode = "require" ∨
      (⟨"h.example.com", 5432, "postgres", "app", "pw", "require"⟩ : ConnArgs).sslmode = "prefer") ∧
      (⟨"h.example.com", 5432, "postgres", "app", "pw", "require"⟩ : ConnArgs).sslmode ≠ "disable") :=
  ⟨c10_sslmode_policy.1 ⟨fun _ => true⟩
      { emptyDict with host := some "h.example.com", username := some "app",
                       password := some "pw" }
      5432 "postgres" true _ (by decide),
   c10_sslmode_policy.2 ⟨fun _ => true⟩
      { emptyDict with host := some "h.example.com", username := some "app",
                       password := some "pw" } _ (by decide)⟩

/-- Counterexample to claim C4 as stated: both applications of
`get_alt_username` succeed on "a_clone_clone", yet the result of the
double application is "a", not the original name. -/
theorem c4_involution_counterexample :
    get_alt_username "a_clone_clone" = .ok "a_clone" ∧
    get_alt_username "a_clone" = .ok "a" ∧
    ("a" : String) ≠ "a_clone_clone" :=
  ⟨by decide, by decide, by decide⟩

/-- Claim C4, amended: `get_alt_username` is involutive on every valid
username (both applications succeed) that does not end in a doubled clone
marker "_clone_clone"; on a name ending in "_clone_clone" both
applications strip the marker instead. -/
theorem c4_get_alt_username_involutive (u v w : String)
    (h1 : get_alt_username u = .ok v)
    (h2 : get_alt_username v = .ok w)
    (hnd : ¬ (clone_suffix.data ++ clone_suffix.data) <:+ u.data) :
    w = u := by
  unfold get_alt_username at h1 h2
  by_cases hsfx : clone_suffix.data <:+ u.data
  · obtain ⟨t, ht⟩ := hsfx
    rw [if_pos ⟨t, ht⟩] at h1
    have hv : v = String.mk (u.data.take (u.data.length - clone_suffix.length)) :=
      (Except.ok.inj h1).symm
    have h6 : clone_suffix.data.length = clone_suffix.length := rfl
    have hlen : u.data.length - clone_suffix.length = t.length := by
      rw [← ht, List.length_append, h6, Nat.add_sub_cancel]
    have hvdata : v.data = t := by
      rw [hv, hlen, ← ht, List.take_left]
    have hnsfx : ¬ clone_suffix.data <:+ v.data := by
      rw [hvdata]
      rintro ⟨r, hr⟩
      exact hnd ⟨r, by rw [← List.append_assoc, hr, ht]⟩
    rw [if_neg hnsfx] at h2
    dsimp only at h2
    split at h2
    · cases h2
    · have hw : w = v ++ clone_suffix := (Except.ok.inj h2).symm
      apply String.ext
      rw [hw, String.data_append, hvdata, ht]
  · rw [if_neg hsfx] at h1
    dsimp only at h1
    split at h1
    · cases h1
    · have hv : v = u ++ clone_suffix := (Except.ok.inj h1).symm
      have hvdata : v.data = u.data ++ clone_suffix.data := by
        rw [hv, String.data_append]
      have hsfx2 : clone_suffix.data <:+ v.data := by
        rw [hvdata]; exact List.suffix_append _ _
      rw [if_pos hsfx2] at h2
      have hw : w = String.mk (v.data.take (v.data.length - clone_suffix.length)) :=
        (Except.ok.inj h2).symm
      have h6 : clone_suffix.data.length = clone_suffix.length := rfl
      have hlen : v.data.length - clone_suffix.length = u.data.length := by
        rw [hvdata, List.length_append, h6, Nat.add_sub_cancel]
      rw [hw, hlen, hvdata, List.take_left]

/-- Witness for the amended C4: a round trip on the plain name "app". -/
theorem c4_get_alt_username_involutive_witness :
    get_alt_username "app" = .ok "app_clone" ∧
    get_alt_username "app_clone" = .ok "app" ∧
    ("app" : String) = "app" :=
  ⟨by decide, by decide,
   c4_get_alt_username_involutive "app" "app_clone" "app"
     (by decide) (by decide) (by decide)⟩

/-- Counterexample to claim C3 as stated: with a control plane in which
the candidate instance does not exist, `is_rds_replica_database` on a
single-instance (postgres) pair raises the lookup's error instead of
returning false. -/
theorem c3_isreplica_counterexample :
    is_rds_replica_database empty_rds_env c3_replica_dict c3_master_dict
      = .error .instanceNotFound := by decide

/-- Claim C3, amended: `is_rds_replica_database` returns false (not an
error) when the topology is resolved but does not certify the candidate as
a replica — the candidate instance exists with a different (or absent)
replication source, the master is not part of a cluster, or the engine is
unrecognised; but when the control-plane lookup itself fails (for example
the candidate instance does not exist), the error propagates instead of
yielding false. -/
theorem c3_isreplica_negative_result (rds : RdsEnv) (replica master : RawDict)
    (rh mh eng : String)
    (hrh : replica.host = some rh) (hmh : master.host = some mh)
    (heng : master.engine = some eng) :
    (eng = "postgres" →
      ∀ (inst : InstanceInfo) (rest : List InstanceInfo),
        rds.describeDBInstances ((rh.splitOn ".").headD "") = .ok (inst :: rest) →
        inst.readReplicaSource ≠ some ((mh.splitOn ".").headD "") →
        is_rds_replica_database rds replica master = .ok false) ∧
    (eng = "aurora-postgresql" →
      get_cluster_info_from_master_host master rds = .ok none →
      is_rds_replica_database rds replica master = .ok false) ∧
    (eng ≠ "postgres" → eng ≠ "aurora-postgresql" →
      is_rds_replica_database rds replica master = .ok false) := by
  refine ⟨?_, ?_, ?_⟩
  · intro he inst rest hdesc hne
    simp only [List.headD_eq_head?_getD] at hdesc hne
    simp [is_rds_replica_database, hrh, hmh, heng, he,
          get_instance_info_from_rds_api, hdesc, hne]
  · intro he hclu
    simp [is_rds_replica_database, hrh, hmh, heng, he, hclu]
  · intro h1 h2
    simp [is_rds_replica_database, hrh, hmh, heng, h1, h2]

/-- Witness for the amended C3: a standalone candidate instance (no
replication source) yields `.ok false` on the postgres path. -/
theorem c3_isreplica_negative_result_witness :
    is_rds_replica_database c3_standalone_rds_env c3_replica_dict c3_master_dict
      = .ok false :=
  (c3_isreplica_negative_result c3_standalone_rds_env c3_replica_dict c3_master_dict
      "candidate.example.com" "master.example.com" "postgres"
      rfl rfl rfl).1 rfl c3_standalone_instance [] rfl (by decide)

/-- Claim C6: when the current credential connects, the Set step fails
with the state-mismatch error — issuing no master connection and no
database statement — whenever the pending username is not the alternate of
the current username or the hosts differ. -/
theorem c6_set_secret_state_mismatch (env : SetEnv) (current_dict pending_dict : RawDict)
    (cu pu ch ph alt : String)
    (hconn : (get_connection env.connEnv current_dict).1 = true)
    (hcu : current_dict.username = some cu)
    (hpu : pending_dict.username = some pu)
    (hch : current_dict.host = some ch)
    (hph : pending_dict.host = some ph)
    (halt : get_alt_username cu = .ok alt)
    (hmis : alt ≠ pu ∨ ch ≠ ph) :
    set_secret env current_dict pending_dict = (.error .stateMismatch, []) := by
  by_cases hne : alt = pu
  · rcases hmis with h | h
    · exact absurd hne h
    · subst hne
      simp [set_secret, hconn, hcu, hpu, hch, hph, halt, h]
  · simp [set_secret, hconn, hcu, hpu, hch, hph, halt, hne]

/-- Witness for C6: a pending payload with a wrong username is refused
with no effect on the database. -/
theorem c6_set_secret_state_mismatch_witness :
    set_secret c7_env_far c67_current c6_pending_bad = (.error .stateMismatch, []) :=
  c6_set_secret_state_mismatch c7_env_far c67_current c6_pending_bad
    "app" "nope" "h.example.com" "h.example.com" "app_clone"
    (by decide) rfl rfl rfl rfl (by decide) (Or.inl (by decide))

/-- Claim C7: after the state checks pass, the Set step fails with the
topology-mismatch error — before attempting a master connection and before
any database statement — whenever the current host differs from the
resolved master host and the replica check answers false; and proceeds to
the master connection when the hosts agree or the check answers true. -/
theorem c7_set_secret_topology_guard (env : SetEnv) (current_dict pending_dict : RawDict)
    (cu pu ch mh ma : String) (master0 : RawDict)
    (hconn : (get_connection env.connEnv current_dict).1 = true)
    (hcu : current_dict.username = some cu)
    (hpu : pending_dict.username = some pu)
    (hch : current_dict.host = some ch)
    (hph : pending_dict.host = some ch)
    (halt : get_alt_username cu = .ok pu)
    (hma : current_dict.masterarn = some ma)
    (hmf : env.masterFetch = .ok master0)
    (hmh : master0.host = some mh) :
    (ch ≠ mh →
      env.isReplica current_dict { master0 with dbname := current_dict.dbname } = .ok false →
      set_secret env current_dict pending_dict = (.error .topologyMismatch, [])) ∧
    ((ch = mh ∨
      env.isReplica current_dict { master0 with dbname := current_dict.dbname } = .ok true) →
      DbEff.openMaster ∈ (set_secret env current_dict pending_dict).2) := by
  constructor
  · intro hne hrep
    simp only [hmh] at hrep
    simp [set_secret, hconn, hcu, hpu, hch, hph, halt, hma, hmf, hmh, hne, hrep]
  · intro hproceed
    rcases hproceed with he | hrep
    · subst he
      simp [set_secret, hconn, hcu, hpu, hch, hph, halt, hma, hmf, hmh]
      split
      · simp
      · split <;> simp
    · simp only [hmh] at hrep
      by_cases he : ch = mh
      · subst he
        simp [set_secret, hconn, hcu, hpu, hch, hph, halt, hma, hmf, hmh]
        split
        · simp
        · split <;> simp
      · simp [set_secret, hconn, hcu, hpu, hch, hph, halt, hma, hmf, hmh, he, hrep]
        split
        · simp
        · split <;> simp

/-- Witness for C7: with a far-away master and a negative replica check
the Set step stops with no master connection; with the master on the same
host it proceeds to the master connection attempt. -/
theorem c7_set_secret_topology_guard_witness :
    set_secret c7_env_far c67_current c7_pending_good = (.error .topologyMismatch, []) ∧
    DbEff.openMaster ∈ (set_secret c7_env_near c67_current c7_pending_good).2 :=
  ⟨(c7_set_secret_topology_guard c7_env_far c67_current c7_pending_good
      "app" "app_clone" "h.example.com" "elsewhere.example.com" "arn:master" c7_master_far
      (by decide) rfl rfl rfl rfl (by decide) rfl rfl rfl).1 (by decide) rfl,
   (c7_set_secret_topology_guard c7_env_near c67_current c7_pending_good
      "app" "app_clone" "h.example.com" "h.example.com" "arn:master" c7_master_near
      (by decide) rfl rfl rfl rfl (by decide) rfl rfl rfl).2 (Or.inl rfl)⟩

/-- Claim C8: fetching a master secret whose payload holds exactly
username and password resolves host, port and engine through the linkage
tag and the control-plane API; a missing linkage is not an immediate
failure (the required-field check then reports the missing host), while a
linkage ARN longer than 256 characters fails immediately with the
invalid-ARN error. -/
theorem c8_master_secret_enrichment (store : StoreEnv) (rds : RdsEnv)
    (arn stage : String) (token : Option String) (d : RawDict)
    (hget : store.getSecretValue arn stage token = .ok (.dict d))
    (honly : only_username_password d = true) :
    ((store.tags arn = none ∨
      ∃ tags, store.tags arn = some tags ∧
        tags.filter (fun t => is_linkage_tag t.1) = []) →
      get_secret_dict store rds arn stage token true = .error (.missingField "host")) ∧
    (∀ (tags : List (String × String)) (t : String × String),
      store.tags arn = some tags →
      (tags.filter (fun t => is_linkage_tag t.1)).getLast? = some t →
      t.2.length > MAX_RDS_DB_INSTANCE_ARN_LENGTH →
      get_secret_dict store rds arn stage token true = .error .invalidArn) ∧
    (∀ (tags : List (String × String)) (t : String × String)
        (inst : InstanceInfo) (rest : List InstanceInfo),
      store.tags arn = some tags →
      (tags.filter (fun t => is_linkage_tag t.1)).getLast? = some t →
      t.2.length ≤ MAX_RDS_DB_INSTANCE_ARN_LENGTH →
      str_lower t.1 = "aws:rds:primarydbinstancearn" →
      rds.describeDBInstances t.2 = .ok (inst :: rest) →
      inst.engine ∈ supported_engines →
      get_secret_dict store rds arn stage token true =
        .ok { d with host := some inst.endpointAddress,
                     port := some inst.endpointPort,
                     engine := some inst.engine }) := by
  have hsplit := honly
  simp only [only_username_password, Bool.and_eq_true,
             Option.isNone_iff_eq_none] at hsplit
  obtain ⟨⟨⟨⟨⟨⟨⟨hu, hp⟩, he⟩, hh⟩, hd⟩, hprt⟩, hm⟩, hs⟩ := hsplit
  have hu' : d.username ≠ none := Option.isSome_iff_ne_none.mp hu
  have hp' : d.password ≠ none := Option.isSome_iff_ne_none.mp hp
  refine ⟨?_, ?_, ?_⟩
  · rintro (htags | ⟨tags, htags, hfilt⟩)
    · simp [get_secret_dict, hget, enrich_master, honly,
            fetch_instance_arn_from_system_tags, htags,
            required_field_check, hh]
    · simp [get_secret_dict, hget, enrich_master, honly,
            fetch_instance_arn_from_system_tags, htags, hfilt,
            required_field_check, hh]
  · intro tags t htags hlast hlen
    simp [get_secret_dict, hget, enrich_master, honly,
          fetch_instance_arn_from_system_tags, htags, hlast, hlen]
  · intro tags t inst rest htags hlast hlen hkey hdesc hsupp
    have hnlt : ¬ t.2.length > MAX_RDS_DB_INSTANCE_ARN_LENGTH := not_lt.mpr hlen
    simp [get_secret_dict, hget, enrich_master, honly,
          fetch_instance_arn_from_system_tags, htags, hlast, hnlt,
          get_connection_params_from_rds_api, hkey,
          get_instance_info_from_rds_api, hdesc,
          required_field_check, hu', hp', hsupp]

set_option maxRecDepth 10000 in
/-- Witness for C8: the three cases instantiated on concrete stores. -/
theorem c8_master_secret_enrichment_witness :
    get_secret_dict c8_store_untagged empty_rds_env "arn:s" "AWSCURRENT" none true
      = .error (.missingField "host") ∧
    get_secret_dict c8_store_long_arn empty_rds_env "arn:s" "AWSCURRENT" none true
      = .error .invalidArn ∧
    get_secret_dict c8_store_linked c8_rds "arn:s" "AWSCURRENT" none true
      = .ok { c8_master_payload with host := some "db1.example.com",
                                     port := some 5432,
                                     engine := some "postgres" } :=
  ⟨(c8_master_secret_enrichment c8_store_untagged empty_rds_env "arn:s" "AWSCURRENT"
      none c8_master_payload rfl (by decide)).1 (Or.inl rfl),
   (c8_master_secret_enrichment c8_store_long_arn empty_rds_env "arn:s" "AWSCURRENT"
      none c8_master_payload rfl (by decide)).2.1
      [("aws:rds:primarydbinstancearn", c8_long_arn)]
      ("aws:rds:primarydbinstancearn", c8_long_arn) rfl (by decide) (by decide),
   (c8_master_secret_enrichment c8_store_linked c8_rds "arn:s" "AWSCURRENT"
      none c8_master_payload rfl (by decide)).2.2
      [("aws:rds:primarydbinstancearn", "arn:aws:rds:db1")]
      ("aws:rds:primarydbinstancearn", "arn:aws:rds:db1") c8_instance [] rfl
      (by decide) (by decide) (by decide) rfl (by decide)⟩

/-- `get_instance_info_from_rds_api` fails only with the API-error or
no-instance errors. -/
theorem get_instance_info_err_cases (rds : RdsEnv) (id : String) (e : Err)
    (h : get_instance_info_from_rds_api rds id = .error e) :
    e = .apiError ∨ e = .instanceNotFound := by
  unfold get_instance_info_from_rds_api at h
  split at h
  · exact Or.inl (Except.error.inj h).symm
  · exact Or.inr (Except.error.inj h).symm
  · cases h

/-- `get_cluster_info_from_rds_api` fails only with the API-error or
no-cluster errors. -/
theorem get_cluster_info_err_cases (rds : RdsEnv) (id : String) (e : Err)
    (h : get_cluster_info_from_rds_api rds id = .error e) :
    e = .apiError ∨ e = .clusterNotFound := by
  unfold get_cluster_info_from_rds_api at h
  split at h
  · exact Or.inl (Except.error.inj h).symm
  · exact Or.inr (Except.error.inj h).symm
  · cases h

/-- `get_connection_params_from_rds_api` never fails with the store's
not-found error. -/
theorem get_connection_params_err_cases (rds : RdsEnv) (d : RawDict)
    (info : String × String) (e : Err)
    (h : get_connection_params_from_rds_api rds d info = .error e) :
    e ≠ .resourceNotFound := by
  unfold get_connection_params_from_rds_api at h
  split at h
  · split at h
    · rename_i heq
      obtain rfl : _ = e := Except.error.inj h
      rcases get_instance_info_err_cases _ _ _ heq with rfl | rfl <;> simp
    · cases h
  · split at h
    · split at h
      · rename_i heq
        obtain rfl : _ = e := Except.error.inj h
        rcases get_cluster_info_err_cases _ _ _ heq with rfl | rfl <;> simp
      · cases h
    · cases h

/-- `fetch_instance_arn_from_system_tags` fails only with the invalid-ARN
error. -/
theorem fetch_instance_arn_err_cases (store : StoreEnv) (arn : String) (e : Err)
    (h : fetch_instance_arn_from_system_tags store arn = .error e) :
    e = .invalidArn := by
  unfold fetch_instance_arn_from_system_tags at h
  split at h
  · cases h
  · split at h
    · cases h
    · split at h
      · exact (Except.error.inj h).symm
      · cases h

/-- The master enrichment never fails with the store's not-found error. -/
theorem enrich_master_no_rnf (store : StoreEnv) (rds : RdsEnv) (arn : String)
    (m : Bool) (d0 : RawDict)
    (h : enrich_master store rds arn m d0 = .error .resourceNotFound) : False := by
  unfold enrich_master at h
  split at h
  · split at h
    · rename_i heq
      have h2 := fetch_instance_arn_err_cases _ _ _ heq
      rw [Except.error.inj h] at h2
      cases h2
    · cases h
    · exact get_connection_params_err_cases _ _ _ _ h rfl
  · cases h

/-- `required_field_check` fails only with a missing-field error. -/
theorem required_field_check_err_cases (d : RawDict) (e : Err)
    (h : required_field_check d = .error e) : ∃ f, e = .missingField f := by
  unfold required_field_check at h
  split at h
  · exact ⟨"host", (Except.error.inj h).symm⟩
  · split at h
    · exact ⟨"username", (Except.error.inj h).symm⟩
    · split at h
      · exact ⟨"password", (Except.error.inj h).symm⟩
      · split at h
        · exact ⟨"engine", (Except.error.inj h).symm⟩
        · cases h

/-- `get_secret_dict` reports the store's not-found error only when the
underlying `get_secret_value` call raised it: none of its own validation
failures masquerade as not-found. -/
theorem get_secret_dict_not_found_source (store : StoreEnv) (rds : RdsEnv)
    (arn stage : String) (token : Option String) (master : Bool)
    (h : get_secret_dict store rds arn stage token master = .error .resourceNotFound) :
    store.getSecretValue arn stage token = .error .resourceNotFound := by
  unfold get_secret_dict at h
  split at h
  · rename_i heq
    rw [heq, Except.error.inj h]
  · cases h
  · split at h
    · rename_i heq
      exact ((enrich_master_no_rnf _ _ _ _ _ ((Except.error.inj h) ▸ heq)).elim)
    · split at h
      · rename_i heq
        obtain ⟨f, rfl⟩ := required_field_check_err_cases _ _ heq
        simp at h
      · split at h
        · simp at h
        · split at h
          · cases h
          · simp at h

/-- Claim C9: `create_secret` is idempotent — whenever the store already
holds a pending version for the requested token (the pending fetch does
not raise not-found), no new payload is put, so a retry leaves the pending
payload unchanged. -/
theorem c9_create_secret_idempotent (store : StoreEnv) (rds : RdsEnv)
    (arn token : String)
    (hpend : store.getSecretValue arn "AWSPENDING" (some token) ≠ .error .resourceNotFound) :
    (create_secret store rds arn token).2 = [] := by
  unfold create_secret
  rcases hc : get_secret_dict store rds arn "AWSCURRENT" none false with e | cur
  · simp
  · rcases hp : get_secret_dict store rds arn "AWSPENDING" (some token) false with e | pd
    · have hne : e ≠ .resourceNotFound := fun hh =>
        hpend (get_secret_dict_not_found_source _ _ _ _ _ _ (hh ▸ hp))
      cases e <;> simp_all
    · simp

/-- Witness for C9: a store whose pending version already exists leads to
no `put_secret_value` call. -/
theorem c9_create_secret_idempotent_witness :
    (create_secret c9_store_pending_exists empty_rds_env "arn:s" "tok").2 = [] :=
  c9_create_secret_idempotent c9_store_pending_exists empty_rds_env "arn:s" "tok"
    (by decide)

/-- A list whose `countP` is at most one contains at most one element
satisfying the predicate. -/
theorem countP_le_one_unique {α : Type} {p : α → Bool} {a b : α} :
    ∀ {l : List α}, l.countP p ≤ 1 → a ∈ l → b ∈ l → p a = true → p b = true →
      a = b
  | [], _, ha, _, _, _ => absurd ha (List.not_mem_nil a)
  | x :: xs, hc, ha, hb, hpa, hpb => by
    rw [List.mem_cons] at ha hb
    rcases ha with rfl | ha <;> rcases hb with rfl | hb
    · rfl
    · exfalso
      rw [List.countP_cons_of_pos _ _ hpa] at hc
      have h0 : xs.countP p = 0 := by omega
      exact (List.countP_eq_zero.mp h0 b hb) hpb
    · exfalso
      rw [List.countP_cons_of_pos _ _ hpb] at hc
      have h0 : xs.countP p = 0 := by omega
      exact (List.countP_eq_zero.mp h0 a ha) hpa
    · refine countP_le_one_unique ?_ ha hb hpa hpb
      rw [List.countP_cons] at hc
      omega

/-- In an association list with no duplicate keys, a key determines its
value. -/
theorem nodup_keys_val_eq {α β : Type} {k : α} {x y : β} :
    ∀ {l : List (α × β)}, (l.map Prod.fst).Nodup → (k, x) ∈ l → (k, y) ∈ l →
      x = y
  | [], _, hx, _ => absurd hx (List.not_mem_nil _)
  | p :: ps, hnd, hx, hy => by
    rw [List.map_cons, List.nodup_cons] at hnd
    rw [List.mem_cons] at hx hy
    rcases hx with hx | hx <;> rcases hy with hy | hy
    · rw [← hx] at hy
      injection hy with _ h
      exact h.symm
    · exfalso
      apply hnd.1
      have hk : k ∈ ps.map Prod.fst := List.mem_map_of_mem Prod.fst hy
      rw [← hx]
      exact hk
    · exfalso
      apply hnd.1
      have hk : k ∈ ps.map Prod.fst := List.mem_map_of_mem Prod.fst hx
      rw [← hy]
      exact hk
    · exact nodup_keys_val_eq hnd.2 hx hy

/-- In an association list with no duplicate keys, exactly one entry
carries a present key. -/
theorem countP_key_eq_one {l : List (String × List String)} {k : String}
    {st : List String}
    (hnodup : (l.map Prod.fst).Nodup) (hmem : (k, st) ∈ l) :
    l.countP (fun p => decide (p.1 = k)) = 1 := by
  have h1 : (l.map Prod.fst).countP (fun a => decide (a = k)) =
      l.countP (fun p => decide (p.1 = k)) := List.countP_map _ _ _
  rw [← h1]
  have h2 : (l.map Prod.fst).countP (fun a => decide (a = k)) =
      (l.map Prod.fst).count k := by
    apply List.countP_congr
    intro x hx
    simp [List.count, beq_iff_eq]
  rw [h2]
  exact List.count_eq_one_of_mem hnodup (List.mem_map_of_mem Prod.fst hmem)

/-- Claim C1: under the store invariant (at most one version staged
`AWSCURRENT`, no duplicate version ids, the token present), `finish_secret`
is a no-op when the token is already current, and otherwise issues exactly
one combined stage-move call after which exactly one version holds
`AWSCURRENT`. -/
theorem c1_finish_secret_atomic (versions : List (String × List String))
    (token : String) (st : List String)
    (hnodup : (versions.map Prod.fst).Nodup)
    (hmem : (token, st) ∈ versions)
    (hinv : countCurrent versions ≤ 1) :
    ("AWSCURRENT" ∈ st → finish_secret versions token = (versions, 0)) ∧
    ("AWSCURRENT" ∉ st →
      (finish_secret versions token).2 = 1 ∧
      countCurrent (finish_secret versions token).1 = 1) := by
  have hinv' : versions.countP (fun p => decide ("AWSCURRENT" ∈ p.2)) ≤ 1 := hinv
  constructor
  · intro hcur
    have hfind : (versions.find? (fun p => decide ("AWSCURRENT" ∈ p.2))).isSome := by
      rw [List.find?_isSome]
      exact ⟨(token, st), hmem, by simpa using hcur⟩
    obtain ⟨q, hq⟩ := Option.isSome_iff_exists.mp hfind
    have hqp := List.find?_some hq
    have hqmem : q ∈ versions := List.mem_of_find?_eq_some hq
    have hqeq : q = (token, st) :=
      countP_le_one_unique hinv' hqmem hmem hqp (by simpa using hcur)
    unfold finish_secret
    rw [hq, hqeq]
    simp
  · intro hncur
    cases hq : versions.find? (fun p => decide ("AWSCURRENT" ∈ p.2)) with
    | none =>
      have hnone := List.find?_eq_none.mp hq
      unfold finish_secret
      rw [hq]
      refine ⟨rfl, ?_⟩
      unfold countCurrent update_secret_version_stage
      rw [List.countP_map]
      have hcongr : versions.countP
          ((fun p => decide ("AWSCURRENT" ∈ p.2)) ∘ (fun p =>
            if p.1 = token then
              (p.1, if "AWSCURRENT" ∈ p.2 then p.2 else "AWSCURRENT" :: p.2)
            else if (none : Option String) = some p.1 then
              (p.1, p.2.filter (fun s => s ≠ "AWSCURRENT"))
            else p)) = versions.countP (fun p => decide (p.1 = token)) := by
        apply List.countP_congr
        intro p hp
        have hbool : ((fun p => decide ("AWSCURRENT" ∈ p.2)) ∘ (fun p =>
            if p.1 = token then
              (p.1, if "AWSCURRENT" ∈ p.2 then p.2 else "AWSCURRENT" :: p.2)
            else if (none : Option String) = some p.1 then
              (p.1, p.2.filter (fun s => s ≠ "AWSCURRENT"))
            else p)) p = decide (p.1 = token) := by
          by_cases hpt : p.1 = token
          · simp only [Function.comp_apply, if_pos hpt]
            have hR : decide (p.1 = token) = true := by simp [hpt]
            rw [hR, decide_eq_true_eq]
            split
            · assumption
            · exact List.mem_cons_self _ _
          · have hnp : ¬ ("AWSCURRENT" ∈ p.2) := by simpa using hnone p hp
            simp only [Function.comp_apply, if_neg hpt]
            simp [hnp, hpt]
        rw [hbool]
      rw [hcongr]
      exact countP_key_eq_one hnodup hmem
    | some q =>
      obtain ⟨qk, qst⟩ := q
      have hqp := List.find?_some hq
      have hqcur : "AWSCURRENT" ∈ qst := by simpa using hqp
      have hqmem : (qk, qst) ∈ versions := List.mem_of_find?_eq_some hq
      have hqt : qk ≠ token := by
        rintro rfl
        exact hncur (nodup_keys_val_eq hnodup hqmem hmem ▸ hqcur)
      unfold finish_secret
      rw [hq]
      simp only [if_neg hqt]
      refine ⟨by trivial, ?_⟩
      unfold countCurrent update_secret_version_stage
      rw [List.countP_map]
      have hcongr : versions.countP
          ((fun p => decide ("AWSCURRENT" ∈ p.2)) ∘ (fun p =>
            if p.1 = token then
              (p.1, if "AWSCURRENT" ∈ p.2 then p.2 else "AWSCURRENT" :: p.2)
            else if (some qk : Option String) = some p.1 then
              (p.1, p.2.filter (fun s => s ≠ "AWSCURRENT"))
            else p)) = versions.countP (fun p => decide (p.1 = token)) := by
        apply List.countP_congr
        intro p hp
        have hbool : ((fun p => decide ("AWSCURRENT" ∈ p.2)) ∘ (fun p =>
            if p.1 = token then
              (p.1, if "AWSCURRENT" ∈ p.2 then p.2 else "AWSCURRENT" :: p.2)
            else if (some qk : Option String) = some p.1 then
              (p.1, p.2.filter (fun s => s ≠ "AWSCURRENT"))
            else p)) p = decide (p.1 = token) := by
          by_cases hpt : p.1 = token
          · simp only [Function.comp_apply, if_pos hpt]
            have hR : decide (p.1 = token) = true := by simp [hpt]
            rw [hR, decide_eq_true_eq]
            split
            · assumption
            · exact List.mem_cons_self _ _
          · by_cases hpq : qk = p.1
            · simp only [Function.comp_apply, if_neg hpt]
              simp [hpq, List.mem_filter, hpt]
            · have hfalse : ¬ ("AWSCURRENT" ∈ p.2) := by
                intro hcon
                have hpeq : p = (qk, qst) :=
                  countP_le_one_unique hinv' hp hqmem (by simpa using hcon) hqp
                rw [hpeq] at hpq
                exact hpq rfl
              simp only [Function.comp_apply, if_neg hpt]
              have hnq : ¬ ((some qk : Option String) = some p.1) := by
                simpa using hpq
              rw [if_neg hnq]
              simp [hfalse, hpt]
        rw [hbool]
      rw [hcongr]
      exact countP_key_eq_one hnodup hmem

/-- Witness for C1: a two-version map, exercising both the no-op branch
and the single combined move. -/
theorem c1_finish_secret_atomic_witness :
    finish_secret [("v1", ["AWSCURRENT"]), ("v2", ["AWSPENDING"])] "v1"
      = ([("v1", ["AWSCURRENT"]), ("v2", ["AWSPENDING"])], 0) ∧
    ((finish_secret [("v1", ["AWSCURRENT"]), ("v2", ["AWSPENDING"])] "v2").2 = 1 ∧
      countCurrent
        (finish_secret [("v1", ["AWSCURRENT"]), ("v2", ["AWSPENDING"])] "v2").1 = 1) :=
  ⟨(c1_finish_secret_atomic [("v1", ["AWSCURRENT"]), ("v2", ["AWSPENDING"])]
      "v1" ["AWSCURRENT"] (by decide) (by decide) (by decide)).1 (by decide),
   (c1_finish_secret_atomic [("v1", ["AWSCURRENT"]), ("v2", ["AWSPENDING"])]
      "v2" ["AWSPENDING"] (by decide) (by decide) (by decide)).2 (by decide)⟩

end RotateSecret
